import Mathlib

/-!
Shallow embedding of the pure time-tracking core of `src/src/App.jsx`
(arbeitszeit-tracker): time arithmetic (`toMinutes`, `minutesToHHMM`),
period/day duration summation (`sumDayMinutes`), week-start computation
(`startOfWeek`), aggregation (`overtimeFor`), and the state mutators
(`addStartNow`, `clearDay`, `handleImportJSON`, `hasOpenPair`).

Modeling conventions:
- JS strings are Lean `String`; an optional/possibly-`undefined` string is
  `Option String`, and JS falsiness of such a value (`!x`, true for both
  `undefined` and `""`) is `strFalsy`.
- JS `Number(s)` is modeled by `jsNumber?`: `""` coerces to `0`, a nonempty
  all-digit string to its decimal value, and any other string to NaN
  (`none`); the program immediately collapses NaN with `|| 0`, which
  `numOr0` captures. This model is faithful on two domains and theorems
  stay inside them: all-digit strings (valid times and numeric malformed
  components), and components with no digit and no `'I'` character — JS
  numeric literals (sign, decimal point, exponent, hex) all require a
  digit and the only digit-free numeric strings are the `"Infinity"`
  forms, so on that domain real `Number` yields NaN or (for
  whitespace-only input) `0`, and `|| 0` collapses both to `0` exactly as
  `numOr0` does. Strings such as `"1.5"` or `"-1"`, where real `Number`
  yields a number while the model yields NaN, are outside both domains and
  no theorem evaluates the model there.
- Machine numbers are `Nat`/`Int` (every quantity here is an exact small
  integer); JS `%` on integers is truncated remainder, `Int.tmod`.
- Calendar dates are modeled as whole days since 1970-01-01 (a Thursday),
  at UTC offset 0: `new Date(ymd+"T00:00:00")` / `toISOString().slice(0,10)`
  are the identity on that representation, `getDay()` is `(d+4) mod 7`, and
  `setDate(getDate()-k)` subtracts `k` days.
-/

namespace Arbeitszeit

/-- JS falsiness of an optional string: `!x` is true when `x` is
`undefined` or the empty string. -/
def strFalsy : Option String → Bool
  | none => true
  | some s => s.isEmpty

/-- JS truthiness of an optional string: present and nonempty. -/
def strTruthy (s : Option String) : Bool := !(strFalsy s)

/-- JS `String.prototype.split` with a single-character separator, on the
character list of the string: `"".split(":")` is `[""]`, and separators cut
the list into (possibly empty) groups. -/
def splitOnChar (sep : Char) : List Char → List (List Char)
  | [] => [[]]
  | c :: rest =>
    let r := splitOnChar sep rest
    if c = sep then [] :: r
    else
      match r with
      | [] => [[c]]
      | g :: gs => (c :: g) :: gs

/-- Decimal value of an all-digit nonempty character list; `none` otherwise. -/
def digitsToNat? (cs : List Char) : Option Nat :=
  if cs.isEmpty then none
  else if cs.all Char.isDigit then
    some (cs.foldl (fun a c => 10 * a + (c.toNat - 48)) 0)
  else none

/-- JS `Number(s)`: `""` coerces to `0`, a nonempty digit string to its
decimal value, anything else to NaN (`none`). This is exact on all-digit
strings; on digit-free strings it is exact only up to `|| 0` (real
`Number` may also yield `0` for whitespace, or `Infinity` for the
digit-free `"Infinity"` forms, which contain `'I'`), so theorems about
non-numeric input require components with no digit and no `'I'`. Strings
where real `Number` yields some other number (`"1.5"`, `"-1"`, `"1e3"`,
`"0x1A"`) all contain a digit; no theorem applies the model to them. -/
def jsNumber? (cs : List Char) : Option Nat :=
  if cs.isEmpty then some 0 else digitsToNat? cs

/-- `(Number(part) || 0)` applied to an optional split component: a missing
component (`undefined`) and NaN both collapse to `0`, as does `0` itself. -/
def numOr0 : Option (List Char) → Nat
  | none => 0
  | some t => (jsNumber? t).getD 0

/-- `toMinutes` (App.jsx:21-25): `if (!hhmm) return 0;` then split on `":"`,
coerce the first two components with `Number`, and return `(h||0)*60+(m||0)`. -/
def toMinutes (hhmm : Option String) : Nat :=
  match hhmm with
  | none => 0
  | some s =>
    if s.isEmpty then 0
    else
      let parts := splitOnChar ':' s.data
      numOr0 parts[0]? * 60 + numOr0 parts[1]?

/-- JS `String.prototype.padStart(2, "0")`: prepend `"0"`s up to length 2. -/
def padStart2 (s : String) : String :=
  if s.length < 2 then String.mk (List.replicate (2 - s.length) '0') ++ s else s

/-- `minutesToHHMM` (App.jsx:27-35): sign, then zero-padded hours and
minutes of the absolute value. -/
def minutesToHHMM (mins : Int) : String :=
  let sign := if mins < 0 then "-" else ""
  let a := mins.natAbs
  let h := padStart2 (toString (a / 60))
  let m := padStart2 (toString (a % 60))
  sign ++ h ++ ":" ++ m

/-- `TimePair` (App.jsx:8): `{ start: string; end?: string }`. `start` is
also `Option String` because `setPair` can write `""` into either field. -/
structure TimePair where
  start : Option String
  «end» : Option String
deriving DecidableEq, Repr

/-- `DayEntry` (App.jsx:9): `{ date: string; pairs: TimePair[]; note?: string }`. -/
structure DayEntry where
  date : String
  pairs : List TimePair
  note : Option String
deriving DecidableEq, Repr

/-- The per-pair contribution inside `sumDayMinutes`'s reducer
(App.jsx:38-43): 0 if either endpoint is falsy, else the minute difference,
wrapped by +1440 when negative. -/
def periodContribution (p : TimePair) : Int :=
  if strFalsy p.start || strFalsy p.«end» then 0
  else
    let dm : Int := (toMinutes p.«end» : Int) - (toMinutes p.start : Int)
    if dm < 0 then dm + 24 * 60 else dm

/-- The reducer of `sumDayMinutes` (App.jsx:38-43): skip a pair with a
falsy endpoint, otherwise add its wrapped minute difference. -/
def sumReducer (acc : Int) (p : TimePair) : Int :=
  if strFalsy p.start || strFalsy p.«end» then acc
  else
    let dm : Int := (toMinutes p.«end» : Int) - (toMinutes p.start : Int)
    acc + (if dm < 0 then dm + 24 * 60 else dm)

/-- `sumDayMinutes` (App.jsx:37-44): reduce over the day's pairs. -/
def sumDayMinutes (e : DayEntry) : Int :=
  e.pairs.foldl sumReducer 0

/-- JS `Date.prototype.getDay` on a date given as whole days since
1970-01-01 (a Thursday, day-of-week 4): Sunday = 0, Monday = 1, ... -/
def jsGetDay (d : Int) : Int := (d + 4) % 7

/-- `startOfWeek` (App.jsx:46-51): subtract `(getDay()+6)%7` days
(Monday = 0 in that reindexing). -/
def startOfWeek (d : Int) : Int := d - (jsGetDay d + 6) % 7

/-- The 7 consecutive dates the week view enumerates (App.jsx:115-126):
`startOfWeek`, then 6 successor days. -/
def weekEntryDates (d : Int) : List Int :=
  (List.range 7).map (fun i : Nat => startOfWeek d + (i : Int))

/-- Result record of `overtimeFor` (App.jsx:131-137). -/
structure Overtime where
  total : Int
  target : Int
  delta : Int
deriving DecidableEq, Repr

/-- `overtimeFor` (App.jsx:131-137): total worked minutes, target scaled by
the number of days with positive minutes, and their difference. -/
def overtimeFor (entriesList : List DayEntry) (dailyTargetMinutes : Int) : Overtime :=
  let total := entriesList.foldl (fun acc e => acc + sumDayMinutes e) 0
  let workedDays := (entriesList.filter (fun e => sumDayMinutes e > 0)).length
  { total := total
    target := workedDays * dailyTargetMinutes
    delta := total - workedDays * dailyTargetMinutes }

/-- `hasOpenPair` (App.jsx:268): some pair has a truthy `start` and a falsy
`end`. -/
def hasOpenPair (e : DayEntry) : Bool :=
  e.pairs.any (fun p => strTruthy p.start && strFalsy p.«end»)

/-- `addStartNow` (App.jsx:148-163): if no record for the selected date
exists, append a fresh one with a single open pair; otherwise, if the
record's last pair has a falsy `end`, do nothing, else append an open pair
started now. -/
def addStartNow (prev : List DayEntry) (selectedDate now : String) : List DayEntry :=
  match prev.findIdx? (fun e => e.date == selectedDate) with
  | none => prev ++ [⟨selectedDate, [⟨some now, none⟩], none⟩]
  | some idx =>
    match prev[idx]? with
    | none => prev
    | some e =>
      if (match e.pairs.getLast? with
          | some p => strFalsy p.«end»
          | none => false)
      then prev
      else prev.set idx { e with pairs := e.pairs ++ [⟨some now, none⟩] }

/-- `clearDay` (App.jsx:220-222): empty the selected date's pairs, keep
everything else. -/
def clearDay (prev : List DayEntry) (selectedDate : String) : List DayEntry :=
  prev.map (fun e => if e.date == selectedDate then { e with pairs := [] } else e)

/-- The per-row duration of `handleExportCSV` (App.jsx:229):
`(toMinutes(end) - toMinutes(start) + 1440) % 1440` when both endpoints are
truthy, else 0; JS `%` is truncated remainder. -/
def csvPairMinutes (p : TimePair) : Int :=
  if strTruthy p.start && strTruthy p.«end» then
    Int.tmod ((toMinutes p.«end» : Int) - (toMinutes p.start : Int) + 1440) 1440
  else 0

/-- A successfully parsed import document, as the import handler probes it
(App.jsx:248-250): `entriesField` is `some` exactly when `data.entries` is
an array, `targetField` is `some` exactly when `data.dailyTargetMinutes`
is a number. -/
structure ImportDoc where
  entriesField : Option (List DayEntry)
  targetField : Option Int
deriving DecidableEq, Repr

/-- The persistent state the import handler touches: the records and the
daily target. -/
structure TrackerState where
  entries : List DayEntry
  dailyTargetMinutes : Int
deriving DecidableEq, Repr

/-- `handleImportJSON` (App.jsx:246-253): `none` is a document whose
`JSON.parse` (or field probe) throws — the catch branch alerts
(`Bool` = true) and leaves state untouched. A parsed document applies each
field independently: `setEntries` iff `entries` is an array,
`setDailyTargetMinutes` iff the target is a number; no alert. -/
def handleImportJSON (doc : Option ImportDoc) (s : TrackerState) : TrackerState × Bool :=
  match doc with
  | none => (s, true)
  | some d =>
    ({ entries := d.entriesField.getD s.entries
       dailyTargetMinutes := d.targetField.getD s.dailyTargetMinutes }, false)

/-- Zero-padded well-formed `"HH:MM"`: hours 00-23, minutes 00-59. -/
def isValidHHMM (s : String) : Bool :=
  (List.range 24).any (fun h => (List.range 60).any (fun m =>
    s == padStart2 (toString h) ++ ":" ++ padStart2 (toString m)))

/-! ## Helper lemmas -/

/-- The reducer of `sumDayMinutes` adds exactly the period's contribution. -/
theorem sumReducer_eq_add (acc : Int) (p : TimePair) :
    sumReducer acc p = acc + periodContribution p := by
  unfold sumReducer periodContribution
  by_cases hc : (strFalsy p.start || strFalsy p.«end») = true
  · simp [hc]
  · simp [hc]

/-- Folding the reducer sums the per-period contributions. -/
theorem foldl_sumReducer (l : List TimePair) (init : Int) :
    l.foldl sumReducer init = init + (l.map periodContribution).sum := by
  induction l generalizing init with
  | nil => simp
  | cons p xs ih => simp [List.foldl_cons, sumReducer_eq_add, ih, add_assoc]

/-- `sumDayMinutes` is the sum of per-period contributions. -/
theorem sumDayMinutes_eq_sum_map (e : DayEntry) :
    sumDayMinutes e = (e.pairs.map periodContribution).sum := by
  simp [sumDayMinutes, foldl_sumReducer]

/-- A running-total fold is the sum of the mapped values. -/
theorem foldl_add_eq_sum {α : Type} (f : α → Int) (l : List α) (init : Int) :
    l.foldl (fun acc x => acc + f x) init = init + (l.map f).sum := by
  induction l generalizing init with
  | nil => simp
  | cons x xs ih => simp [List.foldl_cons, ih, add_assoc]

/-! ## Claims -/

/-- C1 counterexample: the document `{entries: [], dailyTargetMinutes: "480"}`
(entries is an array, target is not a number) applied to the state
`{entries: [one record], dailyTargetMinutes: 480}` replaces the records but
keeps the prior target — the import applied one field while leaving the
other at its prior value, so it is not an atomic all-or-nothing replace. -/
theorem C1_counterexample :
    (handleImportJSON (some ⟨some [], none⟩)
        ⟨[⟨"2024-01-08", [⟨some "08:00", some "16:00"⟩], none⟩], 480⟩).1.entries
      ≠ [⟨"2024-01-08", [⟨some "08:00", some "16:00"⟩], none⟩] ∧
    (handleImportJSON (some ⟨some [], none⟩)
        ⟨[⟨"2024-01-08", [⟨some "08:00", some "16:00"⟩], none⟩], 480⟩).1.dailyTargetMinutes
      = 480 := by
  decide

/-- C1 (amended): import applies the two fields independently — a parse
failure leaves the whole state unchanged (and alerts); a parsed document
replaces `entries` exactly when its `entries` is an array and replaces
`dailyTargetMinutes` exactly when its target is a number, each field
falling back to its prior value otherwise. -/
theorem C1_import_fieldwise :
    (∀ s : TrackerState, handleImportJSON none s = (s, true)) ∧
    (∀ (s : TrackerState) (es : List DayEntry) (t : Int),
      handleImportJSON (some ⟨some es, some t⟩) s = (⟨es, t⟩, false)) ∧
    (∀ (s : TrackerState) (es : List DayEntry),
      handleImportJSON (some ⟨some es, none⟩) s = (⟨es, s.dailyTargetMinutes⟩, false)) ∧
    (∀ (s : TrackerState) (t : Int),
      handleImportJSON (some ⟨none, some t⟩) s = (⟨s.entries, t⟩, false)) ∧
    (∀ s : TrackerState, handleImportJSON (some ⟨none, none⟩) s = (s, false)) :=
  ⟨fun _ => rfl, fun _ _ _ => rfl, fun _ _ => rfl, fun _ _ => rfl, fun _ => rfl⟩

/-- C2 counterexample: the document `{}` parses as JSON but has no
`entries`; the import leaves the prior records unchanged yet produces no
user-facing message (the alert flag is `false`), refuting "reports a
failure to the user". -/
theorem C2_counterexample :
    handleImportJSON (some ⟨none, none⟩)
        ⟨[⟨"2024-01-08", [⟨some "08:00", some "16:00"⟩], none⟩], 480⟩
      = (⟨[⟨"2024-01-08", [⟨some "08:00", some "16:00"⟩], none⟩], 480⟩, false) := by
  rfl

/-- C2 (amended): a parsed document without an array `entries` leaves the
prior records unchanged but is accepted silently — the user-facing message
is produced only when the document fails to parse as JSON. -/
theorem C2_missing_entries_silent :
    (∀ (s : TrackerState) (d : ImportDoc), d.entriesField = none →
      (handleImportJSON (some d) s).1.entries = s.entries ∧
      (handleImportJSON (some d) s).2 = false) ∧
    (∀ s : TrackerState, handleImportJSON none s = (s, true)) := by
  refine ⟨fun s d hd => ?_, fun s => rfl⟩
  simp [handleImportJSON, hd]

/-- C2 witness: instance of `C2_missing_entries_silent` at the document
`{dailyTargetMinutes: 300}` (no `entries`) and a concrete prior state. -/
theorem C2_missing_entries_silent_witness :
    ((handleImportJSON (some ⟨none, some 300⟩)
        ⟨[⟨"2024-01-08", [], none⟩], 480⟩).1.entries
      = [⟨"2024-01-08", [], none⟩] ∧
     (handleImportJSON (some ⟨none, some 300⟩)
        ⟨[⟨"2024-01-08", [], none⟩], 480⟩).2 = false) ∧
    handleImportJSON none ⟨[⟨"2024-01-08", [], none⟩], 480⟩
      = (⟨[⟨"2024-01-08", [], none⟩], 480⟩, true) :=
  ⟨C2_missing_entries_silent.1 ⟨[⟨"2024-01-08", [], none⟩], 480⟩ ⟨none, some 300⟩ rfl,
   C2_missing_entries_silent.2 ⟨[⟨"2024-01-08", [], none⟩], 480⟩⟩

/-- C10: `clearDay` keeps the record count; the record at the selected date
keeps its date and note but loses its pairs, and every record at another
date is unchanged. -/
theorem C10_clearDay_frame :
    (∀ (prev : List DayEntry) (sel : String),
      (clearDay prev sel).length = prev.length) ∧
    (∀ (prev : List DayEntry) (sel : String) (i : Nat) (e : DayEntry),
      prev[i]? = some e →
      (e.date = sel → (clearDay prev sel)[i]? = some ⟨e.date, [], e.note⟩) ∧
      (e.date ≠ sel → (clearDay prev sel)[i]? = some e)) := by
  refine ⟨fun prev sel => by simp [clearDay], fun prev sel i e he => ⟨fun hd => ?_, fun hd => ?_⟩⟩
  · simp [clearDay, List.getElem?_map, he, hd]
  · simp [clearDay, List.getElem?_map, he, hd]

/-- C10 witness: instance of `C10_clearDay_frame` on a two-record state,
clearing the first record's date. -/
theorem C10_clearDay_frame_witness :
    (clearDay [⟨"2024-01-08", [⟨some "08:00", some "09:00"⟩], some "memo"⟩,
               ⟨"2024-01-09", [⟨some "10:00", none⟩], none⟩] "2024-01-08").length = 2 ∧
    (clearDay [⟨"2024-01-08", [⟨some "08:00", some "09:00"⟩], some "memo"⟩,
               ⟨"2024-01-09", [⟨some "10:00", none⟩], none⟩] "2024-01-08")[0]?
      = some ⟨"2024-01-08", [], some "memo"⟩ ∧
    (clearDay [⟨"2024-01-08", [⟨some "08:00", some "09:00"⟩], some "memo"⟩,
               ⟨"2024-01-09", [⟨some "10:00", none⟩], none⟩] "2024-01-08")[1]?
      = some ⟨"2024-01-09", [⟨some "10:00", none⟩], none⟩ :=
  ⟨C10_clearDay_frame.1 _ "2024-01-08",
   (C10_clearDay_frame.2 _ "2024-01-08" 0 _ rfl).1 rfl,
   (C10_clearDay_frame.2 _ "2024-01-08" 1 _ rfl).2 (by decide)⟩

/-- C3 counterexample: a record whose first pair is open (`start` and no
`end`) but whose last pair is closed. The code's own open-period predicate
(`hasOpenPair`, a `some` over all pairs) is true, yet `addStartNow` appends
a new pair — the state changes — because its guard only inspects the last
pair. So "clock-in leaves the state unchanged while any period is open" is
false, and so is "open period iff the last-added period is open". -/
theorem C3_counterexample :
    hasOpenPair ⟨"2024-01-08", [⟨some "08:00", none⟩, ⟨some "09:00", some "10:00"⟩], none⟩
      = true ∧
    addStartNow [⟨"2024-01-08", [⟨some "08:00", none⟩, ⟨some "09:00", some "10:00"⟩], none⟩]
        "2024-01-08" "11:00"
      ≠ [⟨"2024-01-08", [⟨some "08:00", none⟩, ⟨some "09:00", some "10:00"⟩], none⟩] := by
  decide

/-- C3 (amended): `addStartNow` leaves the entries unchanged when the
selected day's record exists and its last pair's `end` is falsy (the guard
inspects only the last pair); and the open-period predicate `hasOpenPair`
holds iff some pair — not necessarily the last — has a truthy `start` and a
falsy `end`. -/
theorem C3_clockin_guard :
    (∀ (prev : List DayEntry) (sel now : String) (idx : Nat) (e : DayEntry) (lp : TimePair),
      prev.findIdx? (fun r => r.date == sel) = some idx →
      prev[idx]? = some e →
      e.pairs.getLast? = some lp →
      strFalsy lp.«end» = true →
      addStartNow prev sel now = prev) ∧
    (∀ e : DayEntry,
      hasOpenPair e = true ↔ ∃ p ∈ e.pairs, strTruthy p.start = true ∧ strFalsy p.«end» = true) := by
  constructor
  · intro prev sel now idx e lp hfind hget hlast hend
    simp [addStartNow, hfind, hget, hlast, hend]
  · intro e
    simp [hasOpenPair, List.any_eq_true, Bool.and_eq_true]

/-- C3 witness: instance of `C3_clockin_guard` — a record whose only pair
is open blocks `addStartNow`, and `hasOpenPair` agrees with the
some-pair-open characterization on it. -/
theorem C3_clockin_guard_witness :
    addStartNow [⟨"2024-01-08", [⟨some "08:00", none⟩], none⟩] "2024-01-08" "09:00"
      = [⟨"2024-01-08", [⟨some "08:00", none⟩], none⟩] ∧
    (hasOpenPair ⟨"2024-01-08", [⟨some "08:00", none⟩], none⟩ = true ↔
      ∃ p ∈ [(⟨some "08:00", none⟩ : TimePair)],
        strTruthy p.start = true ∧ strFalsy p.«end» = true) :=
  ⟨C3_clockin_guard.1 _ "2024-01-08" "09:00" 0 ⟨"2024-01-08", [⟨some "08:00", none⟩], none⟩
      ⟨some "08:00", none⟩ rfl rfl rfl rfl,
   C3_clockin_guard.2 ⟨"2024-01-08", [⟨some "08:00", none⟩], none⟩⟩

/-- C4: the per-period contribution to the day total is 0 when either
endpoint is falsy, otherwise the minute difference, with +1440 exactly when
that difference is negative; the day total sums these contributions, and
the spec's three sample values hold. -/
theorem C4_period_minutes :
    (∀ e : DayEntry, sumDayMinutes e = (e.pairs.map periodContribution).sum) ∧
    (∀ p : TimePair, strFalsy p.start = true ∨ strFalsy p.«end» = true →
      periodContribution p = 0) ∧
    (∀ p : TimePair, strFalsy p.start = false → strFalsy p.«end» = false →
      (0 ≤ (toMinutes p.«end» : Int) - (toMinutes p.start : Int) →
        periodContribution p = (toMinutes p.«end» : Int) - (toMinutes p.start : Int)) ∧
      ((toMinutes p.«end» : Int) - (toMinutes p.start : Int) < 0 →
        periodContribution p
          = (toMinutes p.«end» : Int) - (toMinutes p.start : Int) + 1440)) ∧
    periodContribution ⟨some "08:00", some "16:30"⟩ = 510 ∧
    periodContribution ⟨some "22:00", some "06:00"⟩ = 480 ∧
    periodContribution ⟨some "08:00", none⟩ = 0 := by
  refine ⟨sumDayMinutes_eq_sum_map, fun p hp => ?_, fun p hs he => ?_, by decide, by decide, by decide⟩
  · rcases hp with hp | hp <;> simp [periodContribution, hp]
  · constructor
    · intro hnn
      simp [periodContribution, hs, he]
      omega
    · intro hneg
      simp [periodContribution, hs, he, hneg]

/-- C4 witness: instance of `C4_period_minutes` — the day total of a
two-pair record sums the contributions, a falsy-endpoint pair contributes
0, and both signs of the difference produce the stated values. -/
theorem C4_period_minutes_witness :
    sumDayMinutes ⟨"2024-01-08", [⟨some "08:00", some "16:30"⟩, ⟨some "22:00", some "06:00"⟩], none⟩
      = ([(⟨some "08:00", some "16:30"⟩ : TimePair), ⟨some "22:00", some "06:00"⟩].map
          periodContribution).sum ∧
    periodContribution ⟨none, some "10:00"⟩ = 0 ∧
    periodContribution ⟨some "08:00", some "16:30"⟩
      = (toMinutes (some "16:30") : Int) - (toMinutes (some "08:00") : Int) ∧
    periodContribution ⟨some "22:00", some "06:00"⟩
      = (toMinutes (some "06:00") : Int) - (toMinutes (some "22:00") : Int) + 1440 :=
  ⟨C4_period_minutes.1 ⟨"2024-01-08", [⟨some "08:00", some "16:30"⟩, ⟨some "22:00", some "06:00"⟩], none⟩,
   C4_period_minutes.2.1 ⟨none, some "10:00"⟩ (Or.inl rfl),
   (C4_period_minutes.2.2.1 ⟨some "08:00", some "16:30"⟩ rfl rfl).1 (by decide),
   (C4_period_minutes.2.2.1 ⟨some "22:00", some "06:00"⟩ rfl rfl).2 (by decide)⟩

/-- C7: `overtimeFor` returns the sum of the day totals, the target scaled
by the number of records with a strictly positive day total, and their
difference; on the empty list every target yields `{0, 0, 0}`. -/
theorem C7_aggregate :
    (∀ (rs : List DayEntry) (t : Int),
      overtimeFor rs t =
        ⟨(rs.map sumDayMinutes).sum,
         (rs.countP (fun e => decide (sumDayMinutes e > 0))) * t,
         (rs.map sumDayMinutes).sum
           - (rs.countP (fun e => decide (sumDayMinutes e > 0))) * t⟩) ∧
    (∀ t : Int, overtimeFor [] t = ⟨0, 0, 0⟩) := by
  constructor
  · intro rs t
    unfold overtimeFor
    rw [foldl_add_eq_sum, List.countP_eq_length_filter]
    simp
  · intro t
    simp [overtimeFor]

/-- `numOr0` is 0 whenever the component (if present) is non-numeric. -/
theorem numOr0_eq_zero {x : Option (List Char)}
    (hx : ∀ part, x = some part → digitsToNat? part = none) : numOr0 x = 0 := by
  cases x with
  | none => rfl
  | some part =>
    have hd := hx part rfl
    by_cases hp : part.isEmpty
    · simp [numOr0, jsNumber?, hp]
    · simp [numOr0, jsNumber?, hp, hd]

/-- A component with no digit character parses to NaN. -/
theorem digitsToNat?_none_of_nodigit {part : List Char}
    (h : ∀ c ∈ part, c.isDigit = false) : digitsToNat? part = none := by
  cases part with
  | nil => rfl
  | cons c cs =>
    have hc : c.isDigit = false := h c (List.mem_cons_self c cs)
    simp [digitsToNat?, hc]

set_option maxRecDepth 20000 in
/-- C5: `minutesToHHMM` inverts `toMinutes` on every zero-padded valid
`"HH:MM"` (hours 00-23, minutes 00-59); on a negative count it prepends
`-` and prints the zero-padded hours and minutes of the absolute value,
and `minutesToHHMM (-65) = "-01:05"`. -/
theorem C5_format_parse_roundtrip :
    (∀ h : Nat, h < 24 → ∀ m : Nat, m < 60 →
      minutesToHHMM (toMinutes (some (padStart2 (toString h) ++ ":" ++ padStart2 (toString m))))
        = padStart2 (toString h) ++ ":" ++ padStart2 (toString m)) ∧
    (∀ n : Int, n < 0 →
      minutesToHHMM n
        = "-" ++ padStart2 (toString (n.natAbs / 60)) ++ ":"
            ++ padStart2 (toString (n.natAbs % 60))) ∧
    minutesToHHMM (-65) = "-01:05" := by
  refine ⟨by decide, fun n hn => ?_, by decide⟩
  simp [minutesToHHMM, hn]

/-- C5 witness: instance of `C5_format_parse_roundtrip` at `"08:30"` and at
`-65`. -/
theorem C5_format_parse_roundtrip_witness :
    minutesToHHMM (toMinutes (some (padStart2 (toString 8) ++ ":" ++ padStart2 (toString 30))))
      = padStart2 (toString 8) ++ ":" ++ padStart2 (toString 30) ∧
    minutesToHHMM (-65)
      = "-" ++ padStart2 (toString ((-65 : Int).natAbs / 60)) ++ ":"
          ++ padStart2 (toString ((-65 : Int).natAbs % 60)) :=
  ⟨C5_format_parse_roundtrip.1 8 (by decide) 30 (by decide),
   C5_format_parse_roundtrip.2.1 (-65) (by decide)⟩

/-- C6 counterexample: `"99:99"` is not a well-formed `"HH:MM"` time, yet
`toMinutes` returns 6039, not 0 — malformed-but-numeric components are
used as-is rather than treated as zero. -/
theorem C6_counterexample :
    isValidHHMM "99:99" = false ∧ toMinutes (some "99:99") = 6039 ∧
    toMinutes (some "99:99") ≠ 0 := by
  decide

/-- C6 (amended): absent or empty input yields 0, and a string whose split
components contain no digit and no `'I'` yields 0 without raising an error
(on such components real JS `Number` returns NaN, or 0 for whitespace, and
`|| 0` collapses both to 0: every other JS numeric form — sign, decimal,
exponent, hex, `"Infinity"` — needs a digit or an `'I'`); but numeric
components are not range-checked, so some malformed inputs such as
`"99:99"` yield nonzero values. -/
theorem C6_toMinutes_defaults :
    toMinutes none = 0 ∧ toMinutes (some "") = 0 ∧
    (∀ s : String,
      (∀ part ∈ splitOnChar ':' s.data, ∀ c ∈ part, c.isDigit = false ∧ c ≠ 'I') →
      toMinutes (some s) = 0) ∧
    toMinutes (some "ab:cd") = 0 ∧
    toMinutes (some "99:99") = 6039 := by
  refine ⟨rfl, rfl, fun s hs => ?_, by decide, by decide⟩
  have hz : ∀ part, part ∈ splitOnChar ':' s.data → digitsToNat? part = none :=
    fun part hp =>
      digitsToNat?_none_of_nodigit (fun c hc => (hs part hp c hc).1)
  have h0 : numOr0 (splitOnChar ':' s.data)[0]? = 0 :=
    numOr0_eq_zero (fun part hp => hz part (List.getElem?_mem hp))
  have h1 : numOr0 (splitOnChar ':' s.data)[1]? = 0 :=
    numOr0_eq_zero (fun part hp => hz part (List.getElem?_mem hp))
  simp only [toMinutes]
  split
  · rfl
  · simp [h0, h1]

/-- C6 witness: instance of `C6_toMinutes_defaults` at `"xx:yy"`, whose
two components are digit-free (and `'I'`-free). -/
theorem C6_toMinutes_defaults_witness :
    toMinutes (some "xx:yy") = 0 :=
  C6_toMinutes_defaults.2.2.1 "xx:yy" (by decide)

/-- C8: `startOfWeek` lands on a Monday (`getDay = 1`) on or before the
given date, at most 6 days earlier, and the 7 consecutive dates the week
view enumerates contain the given date exactly once. -/
theorem C8_week_start (d : Int) :
    jsGetDay (startOfWeek d) = 1 ∧
    startOfWeek d ≤ d ∧ d < startOfWeek d + 7 ∧
    (weekEntryDates d).count d = 1 := by
  refine ⟨?_, ?_, ?_, ?_⟩
  · simp only [jsGetDay, startOfWeek]; omega
  · simp only [startOfWeek, jsGetDay]; omega
  · simp only [startOfWeek, jsGetDay]; omega
  · have hmem : d ∈ weekEntryDates d := by
      have h7 : (d - startOfWeek d).toNat ∈ List.range 7 := by
        refine List.mem_range.mpr ?_
        simp only [startOfWeek, jsGetDay]
        omega
      have heq : (fun i : Nat => startOfWeek d + (i : Int)) ((d - startOfWeek d).toNat) = d := by
        show startOfWeek d + (((d - startOfWeek d).toNat : Nat) : Int) = d
        simp only [startOfWeek, jsGetDay]
        omega
      rw [weekEntryDates]
      exact List.mem_map.mpr ⟨(d - startOfWeek d).toNat, h7, heq⟩
    have hinj : Function.Injective (fun i : Nat => startOfWeek d + (i : Int)) :=
      fun a b hab => by simpa using hab
    have hnd : (weekEntryDates d).Nodup := (List.nodup_range 7).map hinj
    exact List.count_eq_one_of_mem hnd hmem

/-- C9: on any pair whose two endpoints are truthy and parse to minute
values at most 1439, the CSV export's duration formula
`(end - start + 1440) % 1440` agrees with the day-total contribution
(`end - start`, plus 1440 only when negative). -/
theorem C9_csv_duration_equiv (p : TimePair)
    (hs : strTruthy p.start = true) (he : strTruthy p.«end» = true)
    (h1 : toMinutes p.start ≤ 1439) (h2 : toMinutes p.«end» ≤ 1439) :
    csvPairMinutes p = periodContribution p := by
  have hfs : strFalsy p.start = false := by
    simpa [strTruthy] using hs
  have hfe : strFalsy p.«end» = false := by
    simpa [strTruthy] using he
  simp only [csvPairMinutes, periodContribution, hs, he, hfs, hfe, Bool.and_self,
    Bool.or_self, if_true, if_false, Bool.false_eq_true]
  rw [Int.tmod_eq_emod (by omega) (by norm_num)]
  split <;> omega

/-- C9 witness: instance of `C9_csv_duration_equiv` at the overnight pair
`22:00` to `06:00`. -/
theorem C9_csv_duration_equiv_witness :
    toMinutes (some "22:00") ≤ 1439 ∧ toMinutes (some "06:00") ≤ 1439 ∧
    csvPairMinutes ⟨some "22:00", some "06:00"⟩
      = periodContribution ⟨some "22:00", some "06:00"⟩ :=
  ⟨by decide, by decide,
   C9_csv_duration_equiv ⟨some "22:00", some "06:00"⟩ (by decide) (by decide)
     (by decide) (by decide)⟩

end Arbeitszeit
